import Mathlib

/-!
Shallow embedding of the SoftLayer libcloud driver
(src/libcloud/drivers/softlayer.py).

Values crossing the XML-RPC boundary, flag fields and the `extra` side
channel are modelled by `PyVal`; Python dicts by insertion-ordered
association lists; remote calls by an oracle (the Transport collaborator)
together with an explicit trace of issued calls; Python runtime errors
(NameError, KeyError, TypeError) by `PyErr` through `Except`.
-/

/-- A Python value as the driver sees it. -/
inductive PyVal : Type where
  | none : PyVal
  | bool : Bool → PyVal
  | int : Int → PyVal
  | str : String → PyVal
  | list : List PyVal → PyVal
  | dict : List (String × PyVal) → PyVal

/-- A Python dict: insertion-ordered association list. -/
abbrev Dict : Type := List (String × PyVal)

/-- First-match association-list lookup (Python `d[k]` / `k in d`). -/
def slookup {β : Type} : List (String × β) → String → Option β
  | [], _ => Option.none
  | (k, v) :: rest, key => if k = key then Option.some v else slookup rest key

/-- Python `d[k] = v`: replace in place if the key exists, else append. -/
def setKey {β : Type} : List (String × β) → String → β → List (String × β)
  | [], key, v => [(key, v)]
  | (k, w) :: rest, key, v =>
      if k = key then (key, v) :: rest else (k, w) :: setKey rest key v

/-- Python `k in d`. -/
def hasKey (d : Dict) (k : String) : Bool := (slookup d k).isSome

/-- Python truthiness, as used by `host[...] or None`. -/
def truthy : PyVal → Bool
  | .none => false
  | .bool b => b
  | .int n => n ≠ 0
  | .str s => s ≠ ""
  | .list l => !l.isEmpty
  | .dict d => !d.isEmpty

/-- `x or None` (softlayer.py lines 234-235). -/
def orNone (v : PyVal) : PyVal := if truthy v then v else .none

/-- A Python runtime error raised by the driver's own code. -/
inductive PyErr : Type where
  | nameError : String → PyErr
  | keyError : String → PyErr
  | typeError : PyErr
deriving DecidableEq

/-- Python `d[k]` with KeyError on a missing key. -/
def getItem (d : Dict) (k : String) : Except PyErr PyVal :=
  match slookup d k with
  | Option.some v => Except.ok v
  | Option.none => Except.error (PyErr.keyError k)

/-- softlayer.py line 82. -/
def SOFTLAYER_SERVICE_HARDWARE : String := "SoftLayer_Hardware"

/-- softlayer.py line 83; note the misspelling (lowercase l) in the source:
the name `SOFTLAYER_SERVICE_VIRTUAL_GUEST` referenced at lines 223 and 323
is never defined, so those references raise NameError at run time. -/
def SOFTLAYER_SERVICE_VIRTUAl_GUEST : String := "SoftLayer_Virtual_Guest"

/-- The libcloud `Node` as this driver populates it (id, name, state,
public_ip, private_ip, extra); the driver reference is not modelled. -/
structure Node : Type where
  id : PyVal
  name : PyVal
  state : PyVal
  public_ip : PyVal
  private_ip : PyVal
  extra : Dict

/-- The `Node(...)` construction at softlayer.py lines 229-238, applied
to the (possibly `_service`-tagged) host dict and the computed statusId:
each required key is looked up in Python keyword-argument order, raising
KeyError at the first missing one; the address fields go through
`... or None`. -/
def build_node (state : PyVal) (h2 : Dict) : Except PyErr Node :=
  match getItem h2 "id" with
  | Except.error e => Except.error e
  | Except.ok i =>
    match getItem h2 "hostname" with
    | Except.error e => Except.error e
    | Except.ok nm =>
      match getItem h2 "primaryIpAddress" with
      | Except.error e => Except.error e
      | Except.ok pub =>
        match getItem h2 "primaryBackendIpAddress" with
        | Except.error e => Except.error e
        | Except.ok priv =>
          Except.ok
            { id := i, name := nm, state := state,
              public_ip := orNone pub, private_ip := orNone priv,
              extra := h2 }

/-- `SoftLayerNodeDriver._to_node` (softlayer.py lines 213-238).

The `statusId` branch assigns `host['_service'] =
SOFTLAYER_SERVICE_VIRTUAL_GUEST`, a global name that does not exist
(the constant is defined as `SOFTLAYER_SERVICE_VIRTUAl_GUEST`), so that
branch raises NameError before anything else happens. The
`hardwareStatusId` branch tags the record with the hardware service and
the Node is then built by `build_node`. -/
def to_node (host : Dict) : Except PyErr Node :=
  if hasKey host "statusId" then
    Except.error (PyErr.nameError "SOFTLAYER_SERVICE_VIRTUAL_GUEST")
  else
    match slookup host "hardwareStatusId" with
    | Option.some v =>
        build_node v (setKey host "_service" (.str SOFTLAYER_SERVICE_HARDWARE))
    | Option.none => build_node (.int 0) host

/-- CPython identity with the literal `1`: `x is 1` holds exactly when
`x` is the cached small int 1; a boolean True is a distinct object and
is not identical to 1. -/
def isInt1 : PyVal → Bool
  | .int n => n == 1
  | _ => false

/-- CPython identity with the literal `False`: `x is False` holds
exactly for the boolean False. -/
def isFalseVal : PyVal → Bool
  | .bool false => true
  | _ => false

/-- One remote XML-RPC call as issued through
`SoftLayerConnection.request` (softlayer.py lines 157-169): target
service, method, positional arguments following the header envelope, and
the optional `id` init parameter and `object_mask` of the envelope. -/
structure Call : Type where
  service : String
  method : String
  args : List PyVal
  id : Option PyVal
  objectMask : Option PyVal

/-- The Transport collaborator: the decoded reply for each remote call.
Faults are out of scope for the claims settled here. -/
def Oracle : Type := Call → PyVal

/-- The cancellation loop of `destroy_node` (softlayer.py lines 336-345):
cancel each billing item in turn, returning False as soon as one
cancellation replies False. When the loop completes, the source executes
`return success` — but no name `success` is ever bound, so this raises
NameError. `acc` is the trace of calls issued so far. -/
def cancelItems (oracle : Oracle) : List PyVal → List Call → Except PyErr Bool × List Call
  | [], acc => (Except.error (PyErr.nameError "success"), acc)
  | item :: rest, acc =>
      match item with
      | .dict d =>
          match slookup d "id" with
          | Option.some iid =>
              let c : Call :=
                ⟨"SoftLayer_Billing_Item", "cancelService", [], Option.some iid, Option.none⟩
              if isFalseVal (oracle c) then (Except.ok false, acc ++ [c])
              else cancelItems oracle rest (acc ++ [c])
          | Option.none => (Except.error (PyErr.keyError "id"), acc)
      | _ => (Except.error PyErr.typeError, acc)

/-- `SoftLayerNodeDriver.destroy_node` (softlayer.py lines 292-345),
returning the Python outcome together with the trace of remote calls.

Identity tests are rendered as follows: `service is
SOFTLAYER_SERVICE_HARDWARE` compares against the interned module
constant, so it holds exactly for that string value stored by `_to_node`;
`bareMetalInstanceFlag is not 1` holds unless the flag is the cached
small int 1 (a boolean True is a distinct object and fails it);
`hourlyBillingFlag is False` and `result is False` hold exactly for the
boolean False. The `elif service is SOFTLAYER_SERVICE_VIRTUAL_GUEST`
test at line 323 references the undefined (misspelled) global, so every
node whose service is not the hardware constant raises NameError there —
including virtual guests, and the final `else: return False` is
unreachable. -/
def destroy_node (oracle : Oracle) (node : Node) : Except PyErr Bool × List Call :=
  match slookup node.extra "_service" with
  | Option.none => (Except.ok false, [])
  | Option.some (PyVal.str s) =>
      if s = SOFTLAYER_SERVICE_HARDWARE then
        match slookup node.extra "bareMetalInstanceFlag" with
        | Option.none => (Except.ok false, [])
        | Option.some bm =>
            if isInt1 bm then
              match slookup node.extra "hourlyBillingFlag" with
              | Option.none => (Except.error (PyErr.keyError "hourlyBillingFlag"), [])
              | Option.some hb =>
                  if isFalseVal hb then (Except.ok false, [])
                  else
                    let c : Call :=
                      ⟨s, "getCurrentBillingDetail", [], Option.some node.id, Option.none⟩
                    match oracle c with
                    | PyVal.list items =>
                        match items with
                        | [] => (Except.ok false, [c])
                        | _ :: _ => cancelItems oracle items [c]
                    | _ => (Except.error PyErr.typeError, [c])
            else (Except.ok false, [])
      else (Except.error (PyErr.nameError "SOFTLAYER_SERVICE_VIRTUAL_GUEST"), [])
  | Option.some _ => (Except.error (PyErr.nameError "SOFTLAYER_SERVICE_VIRTUAL_GUEST"), [])

/-- The template catalog: a dict keyed by template name. -/
abbrev Catalog : Type := List (String × PyVal)

/-- The `example` entry of `SOFTLAYER_TEMPLATES`
(softlayer.py lines 106-129). -/
def exampleTemplate : Dict :=
  [("complexType", .str "SoftLayer_Container_Product_Order_Virtual_Guest"),
   ("location", .int 37473),
   ("packageId", .int 46),
   ("prices", .list
      [.dict [("id", .int 1641)], .dict [("id", .int 1645)],
       .dict [("id", .int 905)], .dict [("id", .int 274)],
       .dict [("id", .int 1800)], .dict [("id", .int 21)],
       .dict [("id", .int 1639)], .dict [("id", .int 1696)],
       .dict [("id", .int 55)], .dict [("id", .int 57)],
       .dict [("id", .int 58)], .dict [("id", .int 420)],
       .dict [("id", .int 418)]]),
   ("quantity", .int 1),
   ("useHourlyPricing", .bool true),
   ("virtualGuests", .list
      [.dict [("domain", .str "example.org"), ("hostname", .str "newcci")]])]

/-- `SOFTLAYER_TEMPLATES` (softlayer.py lines 105-130). -/
def SOFTLAYER_TEMPLATES : Catalog := [("example", .dict exampleTemplate)]

/-- `SoftLayerNodeDriver.create_node` (softlayer.py lines 243-289),
taking the current template catalog (the module-global
`SOFTLAYER_TEMPLATES`) and the two keyword arguments it reads.
Returns the Python result, the trace of remote calls, and the catalog
state after the call.

Line 276 binds `order` to the catalog entry itself, so the assignment
`order['virtualGuests'] = kwargs['virtualGuests']` at line 279 mutates
the shared catalog entry in place; the catalog returned here reflects
that. The remote call at lines 282-286 targets
`SoftLayer_Product_Order.verifyOrder` (the comment at line 284 notes the
method must be changed to `placeOrder` for an actual order), and the
function then returns None. -/
def create_node (oracle : Oracle) (catalog : Catalog)
    (template : Option String) (virtualGuests : Option PyVal) :
    Except PyErr (Option PyVal) × List Call × Catalog :=
  match template with
  | Option.none => (Except.ok Option.none, [], catalog)
  | Option.some t =>
      match slookup catalog t with
      | Option.none => (Except.ok Option.none, [], catalog)
      | Option.some order =>
          match virtualGuests with
          | Option.none =>
              let c : Call :=
                ⟨"SoftLayer_Product_Order", "verifyOrder", [order], Option.none, Option.none⟩
              let _ := oracle c
              (Except.ok Option.none, [c], catalog)
          | Option.some vg =>
              match order with
              | PyVal.dict d =>
                  let order' : PyVal := .dict (setKey d "virtualGuests" vg)
                  let c : Call :=
                    ⟨"SoftLayer_Product_Order", "verifyOrder", [order'], Option.none, Option.none⟩
                  let _ := oracle c
                  (Except.ok Option.none, [c], setKey catalog t order')
              | _ => (Except.error PyErr.typeError, [], catalog)

/-- `SoftLayerNodeDriver.reboot_node` (softlayer.py lines 383-390): a
single positional parameter (the node; there is no mode parameter), one
remote call to `SoftLayer_Virtual_Guest.rebootHard` with the node's id
regardless of the node's kind, returning the reply. -/
def reboot_node (oracle : Oracle) (node : Node) : PyVal × List Call :=
  let c : Call := ⟨"SoftLayer_Virtual_Guest", "rebootHard", [], Option.some node.id, Option.none⟩
  (oracle c, [c])

/-- Modelled from the spec: the repository source under src/ contains no
`list_locations` method; spec sections 3, 4.7 and 6 describe it. The
fixed allow-list of three known-usable datacenter codes with their
hardcoded country codes (the source file only carries the three numeric
location constants for Dallas, Seattle and Washington DC, all US
datacenters). -/
def SOFTLAYER_DATACENTRES : List (String × String) :=
  [("dal01", "US"), ("sea01", "US"), ("wdc01", "US")]

/-- A normalized location record: {id, name, country code}. -/
structure LocationEntry : Type where
  id : PyVal
  name : String
  country : String

/-- Modelled from the spec (section 4.7): normalize one raw datacenter
record: keep it only when its name is on the allow-list, carrying the
allow-list table's country code. -/
def to_location (d : PyVal) : Option LocationEntry :=
  match d with
  | PyVal.dict fields =>
      match slookup fields "name", slookup fields "id" with
      | Option.some (PyVal.str nm), Option.some i =>
          match slookup SOFTLAYER_DATACENTRES nm with
          | Option.some country => Option.some ⟨i, nm, country⟩
          | Option.none => Option.none
      | _, _ => Option.none
  | _ => Option.none

/-- Modelled from the spec: `list_locations` is absent from src/; spec
section 4.7 specifies it as one remote call requesting datacenter
records with a region sub-object mask, filtered to the allow-list, each
survivor normalized with its hardcoded country code. -/
def list_locations (oracle : Oracle) : List LocationEntry × List Call :=
  let c : Call :=
    ⟨"SoftLayer_Location_Datacenter", "getDatacenters", [],
     Option.none, Option.some (.dict [("regions", .dict [])])⟩
  let entries : List PyVal :=
    match oracle c with
    | PyVal.list ds => ds
    | _ => []
  (entries.filterMap to_location, [c])

/-- An oracle whose replies are irrelevant to the claim at hand. -/
def trivialOracle : Oracle := fun _ => PyVal.none

/-- A raw virtual-guest record: statusId present, hardwareStatusId
absent, all required Node keys present. -/
def c1host : Dict :=
  [("statusId", .int 5), ("id", .int 1), ("hostname", .str "h"),
   ("primaryIpAddress", .str "1.2.3.4"), ("primaryBackendIpAddress", .str "10.0.0.1")]

/-- An eligible hourly bare-metal hardware node. -/
def c2node : Node :=
  { id := .int 11, name := .str "hw", state := .int 5,
    public_ip := .none, private_ip := .none,
    extra := [("_service", .str "SoftLayer_Hardware"),
              ("bareMetalInstanceFlag", .int 1),
              ("hourlyBillingFlag", .bool true)] }

/-- Transport replies for the eligible-hardware destroy scenario: the
billing detail is one billing item (id 7) and every cancellation
succeeds. -/
def c2oracle : Oracle := fun c =>
  if c.method = "getCurrentBillingDetail" then .list [.dict [("id", .int 7)]]
  else .bool true

/-- The caller-supplied guest descriptors from the module docstring's
usage example (softlayer.py lines 59-61). -/
def c3guests : PyVal :=
  .list [.dict [("hostname", .str "testhost"), ("domain", .str "testdomain.com")]]

/-- A node tagged with the virtual-guest service string. -/
def c4node : Node :=
  { id := .int 3, name := .str "vg", state := .int 1,
    public_ip := .none, private_ip := .none,
    extra := [("_service", .str "SoftLayer_Virtual_Guest")] }

/-- A node with no resolvable kind: its extra data has no service tag. -/
def c5node : Node :=
  { id := .int 9, name := .str "n", state := .int 1,
    public_ip := .none, private_ip := .none, extra := [] }

/-- An oracle answering every call affirmatively. -/
def c5oracle : Oracle := fun _ => PyVal.bool true

/-- A hardware-kind node whose extra data lacks the bare-metal
eligibility flag. -/
def c7node : Node :=
  { id := .int 12, name := .str "hw2", state := .int 5,
    public_ip := .none, private_ip := .none,
    extra := [("_service", .str "SoftLayer_Hardware")] }

/-- The raw hardware record of the spec's worked example. -/
def c8host : Dict :=
  [("id", .int 42), ("hostname", .str "h1"), ("hardwareStatusId", .int 5),
   ("primaryIpAddress", .str ""), ("primaryBackendIpAddress", .str "10.0.0.1")]

/-- The normalized node the spec's worked example requires: public
address absent, private address kept, kind Hardware (recorded in the
retained raw record's service tag). -/
def c8node : Node :=
  { id := .int 42, name := .str "h1", state := .int 5,
    public_ip := .none, private_ip := .str "10.0.0.1",
    extra := [("id", .int 42), ("hostname", .str "h1"), ("hardwareStatusId", .int 5),
              ("primaryIpAddress", .str ""), ("primaryBackendIpAddress", .str "10.0.0.1"),
              ("_service", .str SOFTLAYER_SERVICE_HARDWARE)] }

/-- A vendor datacenter reply holding one allow-listed record (dal01)
and one record outside the allow-list (ams01). -/
def c9oracle : Oracle := fun _ =>
  .list [.dict [("id", .int 3), ("name", .str "dal01")],
         .dict [("id", .int 999), ("name", .str "ams01")]]

/-- Updating one key leaves lookups of every other key unchanged. -/
theorem slookup_setKey_ne {β : Type} (d : List (String × β)) (k key : String) (v : β)
    (h : key ≠ k) : slookup (setKey d k v) key = slookup d key := by
  have h' : ¬ (k = key) := fun e => h e.symm
  induction d with
  | nil => simp [setKey, slookup, h']
  | cons hd tl ih =>
      obtain ⟨k1, w⟩ := hd
      by_cases hk : k1 = k
      · subst hk
        simp [setKey, slookup, h']
      · by_cases hky : k1 = key <;> simp [setKey, slookup, hk, hky, ih, h, h']

/-- A value that is not the small int 1 fails the identity check. -/
theorem isInt1_eq_false {v : PyVal} (h : v ≠ PyVal.int 1) : isInt1 v = false := by
  cases v with
  | int n =>
      by_cases hn : n = 1
      · subst hn; exact absurd rfl h
      · simpa [isInt1] using hn
  | none => rfl
  | bool b => rfl
  | str s => rfl
  | list l => rfl
  | dict d => rfl

/-- C1: the claim says a raw record carrying a status-id field and no
hardware-status-id field is tagged ResourceKind = VirtualGuest with that
status as its state. The code instead raises NameError on such records:
the statusId branch of `_to_node` references the global name
SOFTLAYER_SERVICE_VIRTUAL_GUEST, which was defined misspelled as
SOFTLAYER_SERVICE_VIRTUAl_GUEST, so no virtual-guest record is ever
normalized. -/
theorem c1_statusid_record_raises_nameerror :
    to_node c1host = Except.error (PyErr.nameError "SOFTLAYER_SERVICE_VIRTUAL_GUEST") := rfl

/-- C2: the claim says destroy of an eligible hardware node whose every
billing-item cancellation succeeds returns overall success. On that very
path the code executes `return success`, a name that is never bound, so
it raises NameError instead of returning success; the two remote calls
(billing-detail fetch, then the cancellation) are issued first. -/
theorem c2_destroy_success_path_raises_nameerror :
    destroy_node c2oracle c2node =
      (Except.error (PyErr.nameError "success"),
       [⟨SOFTLAYER_SERVICE_HARDWARE, "getCurrentBillingDetail", [],
         Option.some (.int 11), Option.none⟩,
        ⟨"SoftLayer_Billing_Item", "cancelService", [],
         Option.some (.int 7), Option.none⟩]) := rfl

/-- C4: the claim says destroy of a VirtualGuest-kind node fetches the
billing item and reports failure softly when none exists. The code never
reaches that logic: the dispatch `elif service is
SOFTLAYER_SERVICE_VIRTUAL_GUEST` references the misspelled (hence
undefined) global, so destroying any virtual-guest node raises NameError
before any remote call. -/
theorem c4_destroy_virtual_guest_raises_nameerror :
    destroy_node trivialOracle c4node =
      (Except.error (PyErr.nameError "SOFTLAYER_SERVICE_VIRTUAL_GUEST"), []) := rfl

/-- C3: the claim says the stored template catalog entry is unchanged
after a createNode call that supplies guest descriptors. The code binds
`order` to the catalog entry itself and writes the caller's guest list
into it, so after the call the catalog's entry carries the caller's
override (`c3guests`), which differs from the original default guest
list. -/
theorem c3_create_node_mutates_template_catalog :
    slookup (create_node trivialOracle SOFTLAYER_TEMPLATES
               (Option.some "example") (Option.some c3guests)).2.2 "example"
      = Option.some (PyVal.dict (setKey exampleTemplate "virtualGuests" c3guests))
    ∧ slookup (setKey exampleTemplate "virtualGuests" c3guests) "virtualGuests"
        = Option.some c3guests
    ∧ c3guests ≠ .list [.dict [("domain", .str "example.org"),
                               ("hostname", .str "newcci")]] := by
  refine ⟨rfl, rfl, ?_⟩
  simp [c3guests]

/-- C5 counterexample: the claim says a node with no resolvable kind is
rejected with no remote call. On a node whose extra data carries no
service tag, `reboot_node` still issues a remote call and returns the
transport's reply rather than a failure. -/
theorem c5_counterexample_kindless_reboot_issues_call :
    slookup c5node.extra "_service" = Option.none
    ∧ (reboot_node c5oracle c5node).2 ≠ []
    ∧ (reboot_node c5oracle c5node).1 = PyVal.bool true := by
  refine ⟨rfl, ?_, rfl⟩
  simp [reboot_node]

/-- C5 amended: reboot_node takes only the node — there is no mode
parameter — and ignores the node's kind: for every node and every
transport it issues exactly one remote call, to the virtual-guest
service's rebootHard method with the node's id, and returns that call's
reply. -/
theorem c5_reboot_always_one_hard_reboot_call (oracle : Oracle) (node : Node) :
    reboot_node oracle node =
      (oracle ⟨"SoftLayer_Virtual_Guest", "rebootHard", [],
               Option.some node.id, Option.none⟩,
       [⟨"SoftLayer_Virtual_Guest", "rebootHard", [],
         Option.some node.id, Option.none⟩]) := rfl

/-- C6 counterexample: the claim says createNode issues a remote
place-order call. With the catalogued template name, the single call it
issues names the method verifyOrder, which is not a place-order
call. -/
theorem c6_counterexample_method_is_verify_order :
    (create_node trivialOracle SOFTLAYER_TEMPLATES
       (Option.some "example") Option.none).2.1.map Call.method = ["verifyOrder"]
    ∧ ("verifyOrder" : String) ≠ "placeOrder" := by
  refine ⟨rfl, ?_⟩
  decide

/-- C6 amended: for every call to createNode with a template name
present in the catalog, the adapter issues exactly one remote call on
the product-order service carrying the resulting order structure (the
template with the caller's guest override applied, when supplied), but
to the order-verification method verifyOrder rather than a place-order
method, and the operation returns nil. -/
theorem c6_create_node_one_verify_order_call (oracle : Oracle) (catalog : Catalog)
    (t : String) (d : Dict) (guests : Option PyVal)
    (h : slookup catalog t = Option.some (PyVal.dict d)) :
    (create_node oracle catalog (Option.some t) guests).1 = Except.ok Option.none
    ∧ (create_node oracle catalog (Option.some t) guests).2.1 =
        [⟨"SoftLayer_Product_Order", "verifyOrder",
          [match guests with
           | Option.none => PyVal.dict d
           | Option.some g => PyVal.dict (setKey d "virtualGuests" g)],
          Option.none, Option.none⟩] := by
  cases guests <;> simp [create_node, h]

/-- C6 witness: the amended statement instantiated at the module's own
catalog and its `example` template, with no guest override. -/
theorem c6_witness :
    (create_node trivialOracle SOFTLAYER_TEMPLATES
       (Option.some "example") Option.none).1 = Except.ok Option.none
    ∧ (create_node trivialOracle SOFTLAYER_TEMPLATES
         (Option.some "example") Option.none).2.1 =
        [⟨"SoftLayer_Product_Order", "verifyOrder", [PyVal.dict exampleTemplate],
          Option.none, Option.none⟩] :=
  c6_create_node_one_verify_order_call trivialOracle SOFTLAYER_TEMPLATES
    "example" exampleTemplate Option.none rfl

/-- C7: for every Hardware-kind node whose side-channel data lacks the
bare-metal eligibility flag, or whose bare-metal flag fails the
identity-with-1 check, or whose hourly-billing flag is False,
destroy_node reports failure (False) with zero remote calls issued. -/
theorem c7_destroy_ineligible_hardware_no_calls (oracle : Oracle) (node : Node)
    (hs : slookup node.extra "_service"
            = Option.some (PyVal.str SOFTLAYER_SERVICE_HARDWARE))
    (h : slookup node.extra "bareMetalInstanceFlag" = Option.none
       ∨ (∃ v, slookup node.extra "bareMetalInstanceFlag" = Option.some v
             ∧ v ≠ PyVal.int 1)
       ∨ (slookup node.extra "bareMetalInstanceFlag" = Option.some (PyVal.int 1)
          ∧ slookup node.extra "hourlyBillingFlag"
              = Option.some (PyVal.bool false))) :
    destroy_node oracle node = (Except.ok false, []) := by
  rcases h with h1 | ⟨v, hv, hne⟩ | ⟨h1, h2⟩
  · simp [destroy_node, hs, h1]
  · simp [destroy_node, hs, hv, isInt1_eq_false hne]
  · simp [destroy_node, hs, h1, h2, isInt1, isFalseVal]

/-- C7 witness: a hardware node with no bareMetalInstanceFlag entry is
refused with an empty call trace. -/
theorem c7_witness :
    slookup c7node.extra "_service"
      = Option.some (PyVal.str SOFTLAYER_SERVICE_HARDWARE)
    ∧ slookup c7node.extra "bareMetalInstanceFlag" = Option.none
    ∧ destroy_node trivialOracle c7node = (Except.ok false, []) :=
  ⟨rfl, rfl,
   c7_destroy_ineligible_hardware_no_calls trivialOracle c7node rfl (Or.inl rfl)⟩

/-- When the Node construction succeeds, both address fields of the raw
record were present and the node carries their `or None`
normalization. -/
theorem build_node_ok_addresses {st : PyVal} {d : Dict} {n : Node}
    (h : build_node st d = Except.ok n) :
    (∃ pub, slookup d "primaryIpAddress" = Option.some pub
          ∧ n.public_ip = orNone pub)
    ∧ (∃ pr, slookup d "primaryBackendIpAddress" = Option.some pr
           ∧ n.private_ip = orNone pr) := by
  unfold build_node getItem at h
  cases hid : slookup d "id" with
  | none => rw [hid] at h; simp at h
  | some i =>
    rw [hid] at h
    cases hname : slookup d "hostname" with
    | none => rw [hname] at h; simp at h
    | some nm =>
      rw [hname] at h
      cases hpub : slookup d "primaryIpAddress" with
      | none => rw [hpub] at h; simp at h
      | some pub =>
        rw [hpub] at h
        cases hpriv : slookup d "primaryBackendIpAddress" with
        | none => rw [hpriv] at h; simp at h
        | some pr =>
          rw [hpriv] at h
          simp only [Except.ok.injEq] at h
          subst h
          exact ⟨⟨pub, rfl, rfl⟩, ⟨pr, rfl, rfl⟩⟩

/-- Lifting `build_node_ok_addresses` through `_to_node`: the service
tag written by the hardware branch does not disturb the address
lookups. -/
theorem to_node_ok_addresses {host : Dict} {n : Node}
    (h : to_node host = Except.ok n) :
    (∃ pub, slookup host "primaryIpAddress" = Option.some pub
          ∧ n.public_ip = orNone pub)
    ∧ (∃ pr, slookup host "primaryBackendIpAddress" = Option.some pr
           ∧ n.private_ip = orNone pr) := by
  unfold to_node at h
  by_cases hs : hasKey host "statusId"
  · simp [hs] at h
  · rw [if_neg hs] at h
    cases hhw : slookup host "hardwareStatusId" with
    | none => rw [hhw] at h; exact build_node_ok_addresses h
    | some v =>
        rw [hhw] at h
        have hb := build_node_ok_addresses h
        rw [slookup_setKey_ne host "_service" "primaryIpAddress" _ (by decide),
            slookup_setKey_ne host "_service" "primaryBackendIpAddress" _ (by decide)] at hb
        exact hb

/-- C8: whenever normalization succeeds and the raw public or private
address field was present but empty/null, the corresponding node field
is absent (None), not the empty value; and the spec's worked example —
a raw hardware record with an empty primaryIpAddress — normalizes to
exactly the node with id 42, name h1, state 5, absent public address,
private address 10.0.0.1, and the hardware service tag in its retained
raw record. -/
theorem c8_empty_address_fields_normalize_to_absent :
    (∀ (host : Dict) (n : Node), to_node host = Except.ok n →
       (∀ v, slookup host "primaryIpAddress" = Option.some v →
          (v = PyVal.str "" ∨ v = PyVal.none) → n.public_ip = PyVal.none)
       ∧ (∀ v, slookup host "primaryBackendIpAddress" = Option.some v →
          (v = PyVal.str "" ∨ v = PyVal.none) → n.private_ip = PyVal.none))
    ∧ to_node c8host = Except.ok c8node := by
  constructor
  · intro host n hok
    obtain ⟨⟨pub, hpub, hnp⟩, ⟨pr, hpr, hnpr⟩⟩ := to_node_ok_addresses hok
    constructor
    · intro v hv hve
      rw [hv] at hpub
      obtain rfl : pub = v := by
        exact (Option.some.injEq _ _ ▸ hpub).symm
      rcases hve with rfl | rfl <;> simp [hnp, orNone, truthy]
    · intro v hv hve
      rw [hv] at hpr
      obtain rfl : pr = v := by
        exact (Option.some.injEq _ _ ▸ hpr).symm
      rcases hve with rfl | rfl <;> simp [hnpr, orNone, truthy]
  · rfl

/-- C8 witness: the general statement applied to the worked example
record, whose public address field is present and empty. -/
theorem c8_witness :
    to_node c8host = Except.ok c8node
    ∧ slookup c8host "primaryIpAddress" = Option.some (PyVal.str "")
    ∧ c8node.public_ip = PyVal.none :=
  ⟨c8_empty_address_fields_normalize_to_absent.2, rfl,
   (c8_empty_address_fields_normalize_to_absent.1 c8host c8node
      c8_empty_address_fields_normalize_to_absent.2).1
     (PyVal.str "") rfl (Or.inl rfl)⟩

/-- A normalized location only ever comes out of a raw record whose
name is on the allow-list, and it carries that table's country code. -/
theorem to_location_in_allow_list {d : PyVal} {e : LocationEntry}
    (h : to_location d = Option.some e) :
    slookup SOFTLAYER_DATACENTRES e.name = Option.some e.country := by
  unfold to_location at h
  split at h
  · split at h
    · split at h
      · rename_i country heq
        simp only [Option.some.injEq] at h
        subst h
        exact heq
      · simp at h
    · simp at h
  · simp at h

/-- C9: for every transport reply, list_locations issues exactly one
remote call requesting datacenter records with a region sub-object
mask; every returned entry has its name on the fixed three-code
allow-list with the country code taken from that table; and no entry is
returned for any vendor-reported name outside the allow-list. -/
theorem c9_list_locations_allow_list (oracle : Oracle) :
    (list_locations oracle).2 =
      [⟨"SoftLayer_Location_Datacenter", "getDatacenters", [],
        Option.none, Option.some (.dict [("regions", .dict [])])⟩]
    ∧ (∀ e, e ∈ (list_locations oracle).1 →
         slookup SOFTLAYER_DATACENTRES e.name = Option.some e.country)
    ∧ (∀ e nm, e ∈ (list_locations oracle).1 →
         slookup SOFTLAYER_DATACENTRES nm = Option.none → e.name ≠ nm) := by
  refine ⟨rfl, ?_, ?_⟩
  · intro e he
    rw [list_locations] at he
    simp only [List.mem_filterMap] at he
    obtain ⟨d, _, hd⟩ := he
    exact to_location_in_allow_list hd
  · intro e nm he hnone heq
    subst heq
    rw [list_locations] at he
    simp only [List.mem_filterMap] at he
    obtain ⟨d, _, hd⟩ := he
    rw [to_location_in_allow_list hd] at hnone
    exact Option.noConfusion hnone

/-- C9 witness: with a vendor reply containing one allow-listed
datacenter (dal01) and one outside the allow-list (ams01), the result is
exactly the dal01 entry with country US, and the theorem applied to that
entry recovers its allow-list row. -/
theorem c9_witness :
    (list_locations c9oracle).1 = [⟨PyVal.int 3, "dal01", "US"⟩]
    ∧ slookup SOFTLAYER_DATACENTRES "dal01" = Option.some "US" :=
  ⟨rfl,
   (c9_list_locations_allow_list c9oracle).2.1 ⟨PyVal.int 3, "dal01", "US"⟩
     (List.mem_cons_self _ _)⟩

/-- C10: the claim says every raw record missing one of the required
keys makes `_to_node` raise a key-lookup error. A record carrying a
statusId field (and missing all four required keys) instead raises
NameError on the misspelled service constant before any key lookup, so
the error is not a key-lookup error for any of the four keys. -/
theorem c10_statusid_record_missing_keys_raises_nameerror :
    to_node [("statusId", PyVal.int 1)] =
      Except.error (PyErr.nameError "SOFTLAYER_SERVICE_VIRTUAL_GUEST")
    ∧ PyErr.nameError "SOFTLAYER_SERVICE_VIRTUAL_GUEST" ≠ PyErr.keyError "id"
    ∧ PyErr.nameError "SOFTLAYER_SERVICE_VIRTUAL_GUEST" ≠ PyErr.keyError "hostname"
    ∧ PyErr.nameError "SOFTLAYER_SERVICE_VIRTUAL_GUEST"
        ≠ PyErr.keyError "primaryIpAddress"
    ∧ PyErr.nameError "SOFTLAYER_SERVICE_VIRTUAL_GUEST"
        ≠ PyErr.keyError "primaryBackendIpAddress" := by
  refine ⟨rfl, ?_, ?_, ?_, ?_⟩ <;> decide
